import Mathlib

/-!
# Verification of the Artificial_Life Kinect utilities

Shallow embedding of `kinect_server.py` (the shadow-grid WebSocket server)
and `kinect_tilt.py` (the one-shot tilt actuator), together with theorems
settling the specification claims about them.

Conventions of the embedding:
* JSON values produced by `json.loads` are the inductive `JValue`
  (JSON numbers are modelled as integers; the recognized viewer fields
  carry integers in every message format the spec describes).
* Python exceptions are `Except Unit` results; an uncaught exception in the
  per-message handler is the `Outcome.uncaught` outcome (the websockets
  library then closes the connection).
* A numpy depth frame is a `Frame`: its shape plus a total value function;
  `int(a / b)` on nonnegative integers is Nat floor division (exact for all
  realistic frame/grid sizes, where float division of integers is exact).
* The region mean `np.mean` is a rational; for an empty region numpy yields
  NaN, which compares false on both sides of the threshold test exactly as
  the rational 0 = 0/0 does here, so the produced cell value agrees.
-/

namespace ALife

/-- JSON values as returned by `json.loads` (object keys are unique). -/
inductive JValue where
  | jnull
  | jbool (b : Bool)
  | jint (n : Int)
  | jstr (s : String)
  | jarr (elems : List JValue)
  | jobj (fields : List (String × JValue))

/-- Is `need` a contiguous sublist of the haystack (Python substring test)? -/
def hasSubList (need : List Char) : List Char → Bool
  | [] => need.isEmpty
  | c :: t => need.isPrefixOf (c :: t) || hasSubList need t

/-- Python `key in v` for a string key: key membership for a dict, element
equality for a list (a string key can only equal a string element),
substring test for a string, `TypeError` otherwise. -/
def pyContains (v : JValue) (key : String) : Except Unit Bool :=
  match v with
  | .jobj fields => .ok (fields.any (fun p => p.1 == key))
  | .jarr elems => .ok (elems.any (fun x => match x with
      | .jstr s => s == key
      | _ => false))
  | .jstr s => .ok (hasSubList key.toList s.toList)
  | _ => .error ()

/-- Python `v[key]` for a string key: dict lookup (`KeyError` when the key is
missing), `TypeError` on every non-dict value. -/
def pySubscript (v : JValue) (key : String) : Except Unit JValue :=
  match v with
  | .jobj fields =>
      match fields.find? (fun p => p.1 == key) with
      | some p => .ok p.2
      | none => .error ()
  | _ => .error ()

/-- Value of a nonempty all-digit character list, `none` otherwise. -/
def digitsVal (cs : List Char) : Option Nat :=
  if cs.isEmpty then none
  else if cs.all (fun c => c.isDigit) then
    some (cs.foldl (fun acc c => acc * 10 + (c.toNat - 48)) 0)
  else none

/-- Python `int(s)` on a string: strip whitespace, optional sign, digits;
`ValueError` (none) otherwise. -/
def pyParseInt (s : String) : Option Int :=
  match s.trim.toList with
  | '-' :: rest => (digitsVal rest).map (fun n => -(n : Int))
  | '+' :: rest => (digitsVal rest).map (fun n => (n : Int))
  | cs => (digitsVal cs).map (fun n => (n : Int))

/-- Python `int(v)`: identity on ints, 0/1 on bools, string parsing on
strings, `TypeError`/`ValueError` otherwise. -/
def pyToInt (v : JValue) : Except Unit Int :=
  match v with
  | .jint n => .ok n
  | .jbool b => .ok (if b then 1 else 0)
  | .jstr s =>
      match pyParseInt s with
      | some n => .ok n
      | none => .error ()
  | _ => .error ()

/-- The server state the viewer session handler mutates: the three fields of
`KinectShadowServer` a message can overwrite.  The grid fields are stored as
raw JSON values exactly as `handle_client` assigns them (no coercion). -/
structure SessionConfig where
  grid_width : JValue
  grid_height : JValue
  depth_threshold : JValue

/-- Outcome of processing one viewer message: the handler either continues
its message loop, or an uncaught exception escapes (the connection is then
closed by the transport, and the session's `finally` removes the client). -/
inductive Outcome where
  | ok
  | uncaught
deriving DecidableEq

/-- `if 'threshold' in data: self.depth_threshold = int(data['threshold'])`
(lines 126-128 of kinect_server.py).  Only `json.JSONDecodeError` is caught
by the handler, so every exception raised here is uncaught. -/
def handle_threshold (data : JValue) (s : SessionConfig) : SessionConfig × Outcome :=
  match pyContains data "threshold" with
  | .error _ => (s, .uncaught)
  | .ok false => (s, .ok)
  | .ok true =>
      match pySubscript data "threshold" with
      | .error _ => (s, .uncaught)
      | .ok v =>
          match pyToInt v with
          | .error _ => (s, .uncaught)
          | .ok n => ({ s with depth_threshold := JValue.jint n }, .ok)

/-- `if 'grid_size' in data: self.grid_width = data['grid_size']['width'];
self.grid_height = data['grid_size']['height']` (lines 130-133).  The width
is assigned before the height lookup runs, so a failing height lookup leaves
a partial update behind. -/
def handle_grid_size (data : JValue) (s : SessionConfig) : SessionConfig × Outcome :=
  match pyContains data "grid_size" with
  | .error _ => (s, .uncaught)
  | .ok false => (s, .ok)
  | .ok true =>
      match pySubscript data "grid_size" with
      | .error _ => (s, .uncaught)
      | .ok gs =>
          match pySubscript gs "width" with
          | .error _ => (s, .uncaught)
          | .ok w =>
              let s1 := { s with grid_width := w }
              match pySubscript gs "height" with
              | .error _ => (s1, .uncaught)
              | .ok h => ({ s1 with grid_height := h }, .ok)

/-- Processing of one received text message in `handle_client`
(lines 121-136): `json.loads` failure (`.error`) is caught and logged and
the loop continues; on a parsed value the threshold update runs, then the
grid-size update; any exception other than `json.JSONDecodeError`
propagates out of the handler. -/
def handle_client_message (s : SessionConfig) (msg : Except Unit JValue) :
    SessionConfig × Outcome :=
  match msg with
  | .error _ => (s, .ok)
  | .ok data =>
      match handle_threshold data s with
      | (s1, .uncaught) => (s1, .uncaught)
      | (s1, .ok) => handle_grid_size data s1

/-- The runtime server configuration in its realistic (integer-valued)
state: `grid_width`, `grid_height`, `depth_threshold` of
`KinectShadowServer`.  Integers, not naturals, because a viewer message can
store any JSON integer into them. -/
structure Config where
  grid_width : Int
  grid_height : Int
  depth_threshold : Int

/-- The projection of an integer-valued session state to `Config`. -/
def asConfig (s : SessionConfig) : Option Config :=
  match s.grid_width, s.grid_height, s.depth_threshold with
  | .jint w, .jint h, .jint t => some ⟨w, h, t⟩
  | _, _, _ => none

/-- A numpy depth frame: `depth.shape = (height, width)` with the value at
row `y`, column `x` given by a total function (numpy frames are rectangular
by construction). -/
structure Frame where
  height : Nat
  width : Nat
  val : Nat → Nat → Nat

/-- Index range selected by the Python slice `[i:j]` on an axis of length
`n`: nonnegative bounds are clamped to `n`. -/
def sliceIdx (n i j : Nat) : List Nat :=
  List.range' (min i n) (min j n - min i n)

/-- The values of the sub-rectangle `depth[dy1:dy2, dx1:dx2]`
(line 92 of kinect_server.py), row major. -/
def regionVals (f : Frame) (dy1 dy2 dx1 dx2 : Nat) : List Nat :=
  (sliceIdx f.height dy1 dy2).flatMap
    (fun y => (sliceIdx f.width dx1 dx2).map (fun x => f.val y x))

/-- `np.mean` of a list of depth samples, as a rational (0 when the list is
empty; numpy yields NaN there, and NaN makes both threshold comparisons
below false exactly as the value 0 does). -/
def npMean (xs : List Nat) : ℚ :=
  (xs.sum : ℚ) / (xs.length : ℚ)

/-- `bool(avg_depth < self.depth_threshold and avg_depth > 400)`
(line 97 of kinect_server.py). -/
def is_shadow (avg : ℚ) (threshold : Int) : Bool :=
  decide (avg < (threshold : ℚ)) && decide (avg > 400)

/-- The source region of target cell `(gx, gy)`: bounds
`dx1 = int(gx*W/gw)`, `dx2 = int((gx+1)*W/gw)` and analogously for y
(lines 86-92), then the slice of the frame they delimit. -/
def cellRegion (f : Frame) (gw gh gx gy : Nat) : List Nat :=
  regionVals f (gy * f.height / gh) ((gy + 1) * f.height / gh)
    (gx * f.width / gw) ((gx + 1) * f.width / gw)

/-- The boolean computed for target cell `(gx, gy)`: threshold test of the
mean of its source region (lines 86-97). -/
def cellShadow (f : Frame) (gw gh : Nat) (threshold : Int) (gx gy : Nat) : Bool :=
  is_shadow (npMean (cellRegion f gw gh gx gy)) threshold

/-- The successful double loop of `get_shadow_mask` (lines 79-102):
`grid_height` rows of `grid_width` cells.  `range(n)` of a negative
configured dimension is empty, hence the `Int.toNat`. -/
def shadowMaskOk (cfg : Config) (f : Frame) : List (List Bool) :=
  (List.range cfg.grid_height.toNat).map (fun gy =>
    (List.range cfg.grid_width.toNat).map (fun gx =>
      cellShadow f cfg.grid_width.toNat cfg.grid_height.toNat
        cfg.depth_threshold gx gy))

/-- `[[False] * self.grid_width for _ in range(self.grid_height)]`
(line 107): the mask returned when the depth read fails. -/
def errorMask (cfg : Config) : List (List Bool) :=
  List.replicate cfg.grid_height.toNat
    (List.replicate cfg.grid_width.toNat false)

/-- `get_shadow_mask` (lines 66-107): the sensor read either yields a frame
or fails (`none`); on failure the exception is caught, a diagnostic is
printed, and the all-false mask of the configured dimensions is returned. -/
def get_shadow_mask (cfg : Config) (read : Option Frame) : List (List Bool) :=
  match read with
  | none => errorMask cfg
  | some f => shadowMaskOk cfg f

/-- `sum(sum(row) for row in mask)` (line 157): booleans sum as 0/1, so this
is the number of `True` cells. -/
def countShadow (mask : List (List Bool)) : Nat :=
  (mask.map (fun row => (row.filter id).length)).sum

/-- The broadcast message of one cycle (lines 160-170 of
kinect_server.py). -/
structure Message where
  mtype : String
  data : List (List Bool)
  md_grid_width : Int
  md_grid_height : Int
  md_threshold : Int
  md_shadow_cells : Nat
  md_frame : Nat

/-- Lines 151-170 of `broadcast_shadow_data`: reduce the current frame with
the current configuration and serialize it together with metadata read from
the same configuration.  There is no `await` between the reduction and
`json.dumps`, so both read the same configuration state. -/
def broadcast_message (cfg : Config) (read : Option Frame) (frame_count : Nat) :
    Message :=
  let mask := get_shadow_mask cfg read
  { mtype := "shadow_mask"
    data := mask
    md_grid_width := cfg.grid_width
    md_grid_height := cfg.grid_height
    md_threshold := cfg.depth_threshold
    md_shadow_cells := countShadow mask
    md_frame := frame_count }

/-- A viewer connection in the Connection Set; `closed` means its channel is
closed or erroring, so a send to it raises. -/
structure Conn where
  cid : Nat
  closed : Bool
deriving DecidableEq

/-- `client.send(message)`: succeeds on an open channel, raises on a closed
or erroring one. -/
def sendTo (c : Conn) : Except Unit Unit :=
  if c.closed then .error () else .ok ()

/-- `await asyncio.gather(*[client.send(message) for client in self.clients],
return_exceptions=True)` (lines 174-177): every send is attempted and its
result (value or exception) collected; no exception propagates out of the
gather, so the cycle always returns normally (`.ok`). -/
def broadcast_send (conns : List Conn) : Except Unit (List (Conn × Except Unit Unit)) :=
  .ok (conns.map (fun c => (c, sendTo c)))

/-- The `finally: self.clients.remove(websocket)` of each `handle_client`
whose connection has closed (lines 140-142), run when the cooperative
scheduler resumes those handlers: every closed connection is removed from
the Connection Set, the open ones stay. -/
def client_finalize (conns : List Conn) : List Conn :=
  conns.filter (fun c => !c.closed)

/-- Result of one freenect driver call in kinect_tilt.py: a usable handle,
a falsy return (`None` from init/open_device, falsy state from
get_tilt_state), or a raised exception. -/
inductive CallRes where
  | ok
  | retNone
  | raises
deriving DecidableEq

/-- The behaviour of the freenect driver for one run of the tilt tool:
what each call does when reached. -/
structure Driver where
  init_res : CallRes
  open_res : CallRes
  set_tilt_raises : Bool
  get_state_res : CallRes
  get_degs_raises : Bool

/-- Driver calls issued during a run of `set_kinect_tilt`, in order. -/
inductive Event where
  | initCtx
  | openDev
  | setTilt (deg : Int)
  | sleep
  | getState
  | getDegs
  | closeDev
  | shutdownCtx
deriving DecidableEq

/-- `angle = max(-30, min(30, angle))` (line 31 of kinect_tilt.py). -/
def pyClamp (angle : Int) : Int :=
  max (-30) (min 30 angle)

/-- `set_kinect_tilt` (lines 23-75 of kinect_tilt.py): returns the success
flag and the trace of driver calls issued.  The clamp runs first; then each
driver call either proceeds, returns a falsy value, or raises; every raised
exception is caught by the one `except` clause which returns `False`
without any cleanup, so a raise after `open_device` skips both
`close_device` and `shutdown`.  `open_device` returning `None` takes the
explicit `freenect.shutdown(ctx)` branch (line 46); a falsy tilt state only
skips the readback block, not the cleanup. -/
def set_kinect_tilt (angle : Int) (d : Driver) : Bool × List Event :=
  let a := pyClamp angle
  match d.init_res with
  | .raises => (false, [.initCtx])
  | .retNone => (false, [.initCtx])
  | .ok =>
    match d.open_res with
    | .raises => (false, [.initCtx, .openDev])
    | .retNone => (false, [.initCtx, .openDev, .shutdownCtx])
    | .ok =>
      if d.set_tilt_raises then (false, [.initCtx, .openDev, .setTilt a])
      else
        match d.get_state_res with
        | .raises => (false, [.initCtx, .openDev, .setTilt a, .sleep, .getState])
        | .retNone =>
            (true, [.initCtx, .openDev, .setTilt a, .sleep, .getState,
              .closeDev, .shutdownCtx])
        | .ok =>
            if d.get_degs_raises then
              (false, [.initCtx, .openDev, .setTilt a, .sleep, .getState, .getDegs])
            else
              (true, [.initCtx, .openDev, .setTilt a, .sleep, .getState, .getDegs,
                .closeDev, .shutdownCtx])

/-! ## Helper lemmas shared by several claims -/

theorem shadowMaskOk_length (cfg : Config) (f : Frame) :
    (shadowMaskOk cfg f).length = cfg.grid_height.toNat := by
  simp [shadowMaskOk]

theorem shadowMaskOk_row_length (cfg : Config) (f : Frame) :
    ∀ row ∈ shadowMaskOk cfg f, row.length = cfg.grid_width.toNat := by
  intro row hr
  obtain ⟨gy, _, rfl⟩ := List.mem_map.mp hr
  simp

theorem mask_length (cfg : Config) (read : Option Frame) :
    (get_shadow_mask cfg read).length = cfg.grid_height.toNat := by
  cases read <;> simp [get_shadow_mask, errorMask, shadowMaskOk_length]

theorem mask_row_length (cfg : Config) (read : Option Frame) :
    ∀ row ∈ get_shadow_mask cfg read, row.length = cfg.grid_width.toNat := by
  cases read with
  | none =>
      intro row hr
      rw [List.eq_of_mem_replicate (show row ∈ _ from hr)]
      simp
  | some f => exact shadowMaskOk_row_length cfg f

/-! ## C1 — malformed viewer messages -/

/-- C1 counterexample: the message `{"grid_size": {"width": 80}}` is valid
JSON but malformed for the recognized shape (its `grid_size` has no
`height`).  Processing it from the default configuration overwrites
`grid_width` with 80 and then raises an uncaught `KeyError`, which closes
the session: the claim that a malformed message leaves the configuration
unchanged and the session open is false. -/
theorem c1_counterexample :
    handle_client_message ⟨.jint 160, .jint 120, .jint 1200⟩
        (.ok (.jobj [("grid_size", .jobj [("width", .jint 80)])])) =
      (⟨.jint 80, .jint 120, .jint 1200⟩, .uncaught) ∧
      JValue.jint 80 ≠ JValue.jint 160 := by
  refine ⟨rfl, fun h => ?_⟩
  injection h with h2
  exact absurd h2 (by decide)

/-- C1 amended: a message that fails JSON parsing (`json.JSONDecodeError`)
is caught, logged and discarded: the configuration is unchanged and the
session stays open.  (A syntactically valid JSON message whose recognized
fields have the wrong shape can instead raise an uncaught exception that
closes the session, possibly after a partial configuration update.) -/
theorem c1_invalid_json_ignored (s : SessionConfig) (e : Unit) :
    handle_client_message s (.error e) = (s, .ok) := rfl

/-! ## C3 — tilt actuator resource release -/

/-- C3: the code violates the claim.  With a driver whose
`freenect.set_tilt_degs` raises (init and open succeed), `set_kinect_tilt`
returns `False` from its `except` clause with a trace that contains neither
`close_device` nor `shutdown`: the exclusive device handle and the context
are leaked, although the spec requires release to run even when a step
after the open fails. -/
theorem c3_leak_on_set_tilt_failure :
    set_kinect_tilt 10 ⟨.ok, .ok, true, .ok, false⟩ =
      (false, [.initCtx, .openDev, .setTilt 10]) ∧
      Event.closeDev ∉ (set_kinect_tilt 10 ⟨.ok, .ok, true, .ok, false⟩).2 ∧
      Event.shutdownCtx ∉ (set_kinect_tilt 10 ⟨.ok, .ok, true, .ok, false⟩).2 := by
  refine ⟨rfl, ?_, ?_⟩ <;> decide

/-! ## C4 — the cell occupancy predicate -/

/-- C4: the Grid Reducer marks a cell occupied exactly when the mean depth
of its source region is strictly greater than 400 and strictly less than
`depth_threshold`; in particular a mean equal to 400 or to the threshold
yields `False`. -/
theorem c4_cell_occupied_iff (f : Frame) (gw gh gx gy : Nat) (t : Int) :
    cellShadow f gw gh t gx gy = true ↔
      (400 < npMean (cellRegion f gw gh gx gy) ∧
        npMean (cellRegion f gw gh gx gy) < (t : ℚ)) := by
  simp only [cellShadow, is_shadow, Bool.and_eq_true, decide_eq_true_eq, gt_iff_lt]
  exact and_comm

/-! ## C5 — graceful degradation on sensor failure -/

/-- C5: when the sensor read fails, `get_shadow_mask` returns a complete
`grid_height x grid_width` array of all `False` (the exception is caught
and surfaced as a printed diagnostic; the function returns normally). -/
theorem c5_error_grid_all_false (cfg : Config)
    (hw : 0 ≤ cfg.grid_width) (hh : 0 ≤ cfg.grid_height) :
    ((get_shadow_mask cfg none).length : Int) = cfg.grid_height ∧
      ∀ row ∈ get_shadow_mask cfg none,
        ((row.length : Int) = cfg.grid_width ∧ ∀ b ∈ row, b = false) := by
  refine ⟨?_, fun row hr => ⟨?_, fun b hb => ?_⟩⟩
  · rw [mask_length]
    exact Int.toNat_of_nonneg hh
  · rw [mask_row_length cfg none row hr]
    exact Int.toNat_of_nonneg hw
  · have hrow := List.eq_of_mem_replicate (show row ∈ _ from hr)
    rw [hrow] at hb
    exact List.eq_of_mem_replicate hb

/-- C5 witness at the default configuration 160x120 with threshold 1200. -/
theorem c5_error_grid_all_false_witness :
    (0 : Int) ≤ 160 ∧ (0 : Int) ≤ 120 ∧
      (((get_shadow_mask ⟨160, 120, 1200⟩ none).length : Int) = 120 ∧
        ∀ row ∈ get_shadow_mask ⟨160, 120, 1200⟩ none,
          ((row.length : Int) = 160 ∧ ∀ b ∈ row, b = false)) :=
  ⟨by decide, by decide,
    c5_error_grid_all_false ⟨160, 120, 1200⟩ (by decide) (by decide)⟩

/-! ## C6 — output shape of a successful reduction -/

/-- C6: for every depth frame and configured dimensions at least 1, the
successful reduction yields exactly `grid_height` rows of exactly
`grid_width` booleans each. -/
theorem c6_mask_shape (cfg : Config) (f : Frame)
    (hw : 1 ≤ cfg.grid_width) (hh : 1 ≤ cfg.grid_height) :
    ((get_shadow_mask cfg (some f)).length : Int) = cfg.grid_height ∧
      ∀ row ∈ get_shadow_mask cfg (some f), ((row.length : Int) = cfg.grid_width) := by
  refine ⟨?_, fun row hr => ?_⟩
  · rw [mask_length]
    exact Int.toNat_of_nonneg (le_trans (by decide) hh)
  · rw [mask_row_length cfg (some f) row hr]
    exact Int.toNat_of_nonneg (le_trans (by decide) hw)

/-- C6 witness: a constant 2x2 frame reduced to a 3x2 grid. -/
theorem c6_mask_shape_witness :
    (1 : Int) ≤ 3 ∧ (1 : Int) ≤ 2 ∧
      (((get_shadow_mask ⟨3, 2, 1200⟩ (some ⟨2, 2, fun _ _ => 500⟩)).length : Int) = 2 ∧
        ∀ row ∈ get_shadow_mask ⟨3, 2, 1200⟩ (some ⟨2, 2, fun _ _ => 500⟩),
          ((row.length : Int) = 3)) :=
  ⟨by decide, by decide,
    c6_mask_shape ⟨3, 2, 1200⟩ ⟨2, 2, fun _ _ => 500⟩ (by decide) (by decide)⟩

/-! ## C2 — source regions of the proportional scaling -/

/-- When the source axis is at least as long as the grid axis, consecutive
scaled bounds are strictly increasing. -/
theorem scale_lt (a b n : Nat) (hb : 0 < b) (hbn : b ≤ n) :
    a * n / b < (a + 1) * n / b := by
  have h1 : a * n / b * b ≤ a * n := Nat.div_mul_le_self _ _
  have h2 : (a * n / b + 1) * b ≤ (a + 1) * n := by
    have : (a * n / b + 1) * b = a * n / b * b + b := by ring
    have : (a + 1) * n = a * n + n := by ring
    omega
  have h3 : a * n / b + 1 ≤ (a + 1) * n / b := (Nat.le_div_iff_mul_le hb).mpr h2
  omega

/-- Scaled bounds never exceed the source axis length. -/
theorem scale_le (a b n : Nat) (hb : 0 < b) (hab : a ≤ b) :
    a * n / b ≤ n := by
  have h1 : a * n ≤ b * n := Nat.mul_le_mul_right n hab
  have h2 : a * n / b ≤ b * n / b := Nat.div_le_div_right h1
  rwa [Nat.mul_div_cancel_left n hb] at h2

/-- C2 counterexample: on a 1x1 frame with `grid_width = 2` and
`grid_height = 1` (both at least 1), cell `(gx, gy) = (0, 0)` gets the
bounds `dx1 = int(0*1/2) = 0`, `dx2 = int(1*1/2) = 0`: an empty source
region.  The code has no minimum-region-size guard, so the claim that the
bounds never delimit an empty region is false; `np.mean` of the empty
region is NaN (a 0/0 float division), which makes the cell `False`. -/
theorem c2_counterexample :
    (0 : Nat) < 2 ∧ (0 : Nat) < 1 ∧
      (cellRegion ⟨1, 1, fun _ _ => 1000⟩ 2 1 0 0).length = 0 := by
  refine ⟨by decide, by decide, rfl⟩

/-- C2 amended: the source region of every in-range cell is nonempty
provided the grid is no finer than the frame (`grid_width` at most the
frame width and `grid_height` at most the frame height); when the grid is
finer than the frame, a cell's region can scale to empty and the cell's
mean is NaN (the cell becomes `False`, with no exception). -/
theorem c2_region_nonempty (f : Frame) (gw gh gx gy : Nat)
    (hgw : gw ≤ f.width) (hgh : gh ≤ f.height)
    (hx : gx < gw) (hy : gy < gh) :
    0 < (cellRegion f gw gh gx gy).length := by
  have hbw : 0 < gw := Nat.pos_of_ne_zero (by omega)
  have hbh : 0 < gh := Nat.pos_of_ne_zero (by omega)
  have hx2 : (gx + 1) * f.width / gw ≤ f.width := scale_le (gx + 1) gw f.width hbw hx
  have hy2 : (gy + 1) * f.height / gh ≤ f.height := scale_le (gy + 1) gh f.height hbh hy
  have hx1 : gx * f.width / gw < (gx + 1) * f.width / gw := scale_lt gx gw f.width hbw hgw
  have hy1 : gy * f.height / gh < (gy + 1) * f.height / gh := scale_lt gy gh f.height hbh hgh
  unfold cellRegion regionVals sliceIdx
  rw [List.length_flatMap]
  rw [min_eq_left (le_trans hy1.le hy2), min_eq_left hy2,
    min_eq_left (le_trans hx1.le hx2), min_eq_left hx2]
  have hconst :
      (List.range' (gy * f.height / gh)
          ((gy + 1) * f.height / gh - gy * f.height / gh)).map
        (List.length ∘ fun y =>
          (List.range' (gx * f.width / gw)
            ((gx + 1) * f.width / gw - gx * f.width / gw)).map (fun x => f.val y x)) =
      List.replicate ((gy + 1) * f.height / gh - gy * f.height / gh)
        ((gx + 1) * f.width / gw - gx * f.width / gw) := by
    rw [show (List.length ∘ fun y =>
        (List.range' (gx * f.width / gw)
          ((gx + 1) * f.width / gw - gx * f.width / gw)).map (fun x => f.val y x)) =
        Function.const Nat ((gx + 1) * f.width / gw - gx * f.width / gw) from ?_]
    · rw [List.map_const, List.length_range']
    · funext y
      simp [Function.comp, Function.const]
  rw [hconst, List.sum_replicate, smul_eq_mul]
  exact Nat.mul_pos (by omega) (by omega)

/-- C2 amended witness: 4x4 frame, 2x2 grid, cell (1, 0). -/
theorem c2_region_nonempty_witness :
    (2 : Nat) ≤ 4 ∧ (1 : Nat) < 2 ∧ (0 : Nat) < 2 ∧
      0 < (cellRegion ⟨4, 4, fun _ _ => 800⟩ 2 2 1 0).length :=
  ⟨by decide, by decide, by decide,
    c2_region_nonempty ⟨4, 4, fun _ _ => 800⟩ 2 2 1 0 (by decide) (by decide)
      (by decide) (by decide)⟩

/-! ## C7 — identity reduction at full resolution -/

/-- The Python slice `[i:i+1]` of an axis of length `n` selects exactly
index `i` when `i < n`. -/
theorem sliceIdx_single (n i : Nat) (h : i < n) : sliceIdx n i (i + 1) = [i] := by
  unfold sliceIdx
  rw [min_eq_left h.le, min_eq_left h]
  simp

/-- At full resolution the source region of cell `(gx, gy)` is the single
pixel `(gy, gx)`. -/
theorem cellRegion_self (f : Frame) (gx gy : Nat)
    (hx : gx < f.width) (hy : gy < f.height) :
    cellRegion f f.width f.height gx gy = [f.val gy gx] := by
  have hw : 0 < f.width := Nat.pos_of_ne_zero (by omega)
  have hh : 0 < f.height := Nat.pos_of_ne_zero (by omega)
  unfold cellRegion regionVals
  rw [Nat.mul_div_cancel gx hw, Nat.mul_div_cancel (gx + 1) hw,
    Nat.mul_div_cancel gy hh, Nat.mul_div_cancel (gy + 1) hh,
    sliceIdx_single f.width gx hx, sliceIdx_single f.height gy hy]
  simp

/-- At full resolution the cell boolean is the per-pixel threshold test. -/
theorem cellShadow_self (f : Frame) (t : Int) (gx gy : Nat)
    (hx : gx < f.width) (hy : gy < f.height) :
    cellShadow f f.width f.height t gx gy =
      decide ((400 : Int) < (f.val gy gx : Int) ∧ (f.val gy gx : Int) < t) := by
  unfold cellShadow
  rw [cellRegion_self f gx gy hx hy]
  unfold npMean is_shadow
  have hmean : ((([f.val gy gx] : List Nat).sum : ℚ) / (([f.val gy gx] : List Nat).length : ℚ)) =
      ((f.val gy gx : Nat) : ℚ) := by
    simp
  rw [hmean]
  have h1 : (((f.val gy gx : Nat) : ℚ) < ((t : Int) : ℚ)) ↔ ((f.val gy gx : Int) < t) := by
    exact_mod_cast Iff.rfl
  have h2 : (((f.val gy gx : Nat) : ℚ) > 400) ↔ ((400 : Int) < (f.val gy gx : Int)) := by
    rw [gt_iff_lt]
    exact_mod_cast Iff.rfl
  rw [decide_eq_decide.mpr h1, decide_eq_decide.mpr h2, Bool.decide_and,
    Bool.and_comm]

/-- C7: reducing a frame with `grid_width = depth_width` and
`grid_height = depth_height` yields exactly the per-pixel thresholding of
the raw frame: every cell's source region is its single corresponding
pixel, so the region mean is that pixel's value. -/
theorem c7_identity_thresholding (f : Frame) (t : Int) :
    get_shadow_mask ⟨(f.width : Int), (f.height : Int), t⟩ (some f) =
      (List.range f.height).map (fun gy => (List.range f.width).map (fun gx =>
        decide ((400 : Int) < (f.val gy gx : Int) ∧ (f.val gy gx : Int) < t))) := by
  show shadowMaskOk _ f = _
  unfold shadowMaskOk
  simp only [Int.toNat_natCast]
  apply List.map_congr_left
  intro gy hgy
  apply List.map_congr_left
  intro gx hgx
  exact cellShadow_self f t gx gy (List.mem_range.mp hgx) (List.mem_range.mp hgy)

/-! ## C8 — angle clamping in the tilt actuator -/

/-- C8: whenever the run reaches the tilt command (context and device both
open), the angle issued to the device is exactly the input clamped to
[-30, 30]: any issued tilt is the clamp, in-range inputs pass through
unchanged, and out-of-range inputs are replaced by the nearest bound. -/
theorem c8_clamp_issued (angle : Int) (d : Driver)
    (hinit : d.init_res = .ok) (hopen : d.open_res = .ok) :
    (Event.setTilt (pyClamp angle) ∈ (set_kinect_tilt angle d).2 ∧
        ∀ a, Event.setTilt a ∈ (set_kinect_tilt angle d).2 → a = pyClamp angle) ∧
      (-30 ≤ angle → angle ≤ 30 → pyClamp angle = angle) ∧
      (30 < angle → pyClamp angle = 30) ∧
      (angle < -30 → pyClamp angle = -30) := by
  refine ⟨?_, ?_, ?_, ?_⟩
  · unfold set_kinect_tilt
    rw [hinit, hopen]
    rcases hst : d.set_tilt_raises with _ | _ <;>
      rcases hgs : d.get_state_res with _ | _ | _ <;>
        rcases hgd : d.get_degs_raises with _ | _ <;>
          simp_all [List.mem_cons]
  · intro h1 h2
    unfold pyClamp
    omega
  · intro h
    unfold pyClamp
    omega
  · intro h
    unfold pyClamp
    omega

/-- C8 witness: the spec's example, angle 45 with a fully working driver —
the issued tilt is 30. -/
theorem c8_clamp_issued_witness :
    (Driver.init_res ⟨.ok, .ok, false, .ok, false⟩ = .ok) ∧
      (Driver.open_res ⟨.ok, .ok, false, .ok, false⟩ = .ok) ∧
      Event.setTilt 30 ∈ (set_kinect_tilt 45 ⟨.ok, .ok, false, .ok, false⟩).2 :=
  ⟨rfl, rfl, by
    have h := c8_clamp_issued 45 ⟨.ok, .ok, false, .ok, false⟩ rfl rfl
    have h30 : pyClamp 45 = 30 := h.2.2.1 (by decide)
    have := h.1.1
    rwa [h30] at this⟩

/-! ## C9 — fan-out failure isolation -/

/-- C9: a closed (failing) connection in the set does not prevent the send
from being attempted on every connection: the gather with suppressed
exceptions returns normally (`.ok`, so the loop continues) with one result
per connection, the failing connection's result being the error.  The
failing viewer is deregistered when its session handler's `finally` runs
(`client_finalize`), and every open viewer stays registered. -/
theorem c9_delivery_isolation (conns : List Conn) (c : Conn)
    (hc : c ∈ conns) (hcl : c.closed = true) :
    (∃ rs, broadcast_send conns = .ok rs ∧
        rs.map Prod.fst = conns ∧ (c, Except.error ()) ∈ rs) ∧
      c ∉ client_finalize conns ∧
      ∀ c2 ∈ conns, c2.closed = false → c2 ∈ client_finalize conns := by
  refine ⟨⟨conns.map (fun x => (x, sendTo x)), rfl, ?_, ?_⟩, ?_, ?_⟩
  · rw [List.map_map]
    exact List.map_id conns
  · have : (c, sendTo c) ∈ conns.map (fun x => (x, sendTo x)) :=
      List.mem_map_of_mem _ hc
    rwa [show sendTo c = Except.error () from by simp [sendTo, hcl]] at this
  · intro hmem
    have := (List.mem_filter.mp hmem).2
    rw [hcl] at this
    exact absurd this (by decide)
  · intro c2 h2 hopen
    exact List.mem_filter.mpr ⟨h2, by rw [hopen]; rfl⟩

/-- C9 witness: two connections, the first closed; both sends attempted,
the closed one removed, the open one kept. -/
theorem c9_delivery_isolation_witness :
    ((⟨0, true⟩ : Conn) ∈ [(⟨0, true⟩ : Conn), ⟨1, false⟩] ∧
        (Conn.closed ⟨0, true⟩ = true)) ∧
      ((∃ rs, broadcast_send [(⟨0, true⟩ : Conn), ⟨1, false⟩] = .ok rs ∧
          rs.map Prod.fst = [(⟨0, true⟩ : Conn), ⟨1, false⟩] ∧
          ((⟨0, true⟩ : Conn), Except.error ()) ∈ rs) ∧
        (⟨0, true⟩ : Conn) ∉ client_finalize [(⟨0, true⟩ : Conn), ⟨1, false⟩] ∧
        ∀ c2 ∈ [(⟨0, true⟩ : Conn), ⟨1, false⟩], c2.closed = false →
          c2 ∈ client_finalize [(⟨0, true⟩ : Conn), ⟨1, false⟩]) :=
  ⟨⟨by decide, rfl⟩,
    c9_delivery_isolation [⟨0, true⟩, ⟨1, false⟩] ⟨0, true⟩ (by decide) rfl⟩

/-! ## C10 — metadata/payload consistency of broadcast messages -/

/-- C10 counterexample: the viewer message
`{"grid_size": {"width": 160, "height": -1}}` is accepted (session stays
open) and stores -1 as `grid_height`.  The next broadcast cycle then sends
a message whose `data` has 0 rows (`range(-1)` is empty) while its
`metadata.grid_height` is -1: the metadata disagrees with the payload, so
the claim that a viewer update can never make them disagree is false. -/
theorem c10_counterexample :
    handle_client_message ⟨.jint 160, .jint 120, .jint 1200⟩
        (.ok (.jobj [("grid_size",
          .jobj [("width", .jint 160), ("height", .jint (-1))])])) =
      (⟨.jint 160, .jint (-1), .jint 1200⟩, .ok) ∧
      asConfig ⟨.jint 160, .jint (-1), .jint 1200⟩ = some ⟨160, -1, 1200⟩ ∧
      (broadcast_message ⟨160, -1, 1200⟩ (some ⟨480, 640, fun _ _ => 1000⟩) 0).md_grid_height = -1 ∧
      ((broadcast_message ⟨160, -1, 1200⟩ (some ⟨480, 640, fun _ _ => 1000⟩) 0).data.length : Int) = 0 ∧
      (-1 : Int) ≠ 0 := by
  exact ⟨rfl, rfl, rfl, rfl, by decide⟩

/-- C10 amended: as long as the configured dimensions are nonnegative, every
broadcast message is internally consistent — `metadata.grid_height` is the
number of rows of `data`, `metadata.grid_width` the length of every row,
and `metadata.shadow_cells` the number of `True` cells — because the mask
is reduced and serialized from the same configuration state with no
suspension point in between.  A viewer update that stores a negative
dimension breaks the dimension agreement (the payload is clamped to empty,
the metadata is not). -/
theorem c10_metadata_consistent (cfg : Config) (read : Option Frame) (n : Nat)
    (hw : 0 ≤ cfg.grid_width) (hh : 0 ≤ cfg.grid_height) :
    (((broadcast_message cfg read n).data.length : Int) =
        (broadcast_message cfg read n).md_grid_height) ∧
      (∀ row ∈ (broadcast_message cfg read n).data,
        ((row.length : Int) = (broadcast_message cfg read n).md_grid_width)) ∧
      (broadcast_message cfg read n).md_shadow_cells =
        countShadow ((broadcast_message cfg read n).data) := by
  refine ⟨?_, fun row hr => ?_, rfl⟩
  · show ((get_shadow_mask cfg read).length : Int) = cfg.grid_height
    rw [mask_length]
    exact Int.toNat_of_nonneg hh
  · show (row.length : Int) = cfg.grid_width
    rw [mask_row_length cfg read row hr]
    exact Int.toNat_of_nonneg hw

/-- C10 amended witness at a 2x3 grid over a 2x2 frame. -/
theorem c10_metadata_consistent_witness :
    (0 : Int) ≤ 2 ∧ (0 : Int) ≤ 3 ∧
      ((((broadcast_message ⟨2, 3, 1200⟩ (some ⟨2, 2, fun _ _ => 500⟩) 7).data.length : Int) =
          (broadcast_message ⟨2, 3, 1200⟩ (some ⟨2, 2, fun _ _ => 500⟩) 7).md_grid_height) ∧
        (∀ row ∈ (broadcast_message ⟨2, 3, 1200⟩ (some ⟨2, 2, fun _ _ => 500⟩) 7).data,
          ((row.length : Int) =
            (broadcast_message ⟨2, 3, 1200⟩ (some ⟨2, 2, fun _ _ => 500⟩) 7).md_grid_width)) ∧
        (broadcast_message ⟨2, 3, 1200⟩ (some ⟨2, 2, fun _ _ => 500⟩) 7).md_shadow_cells =
          countShadow ((broadcast_message ⟨2, 3, 1200⟩ (some ⟨2, 2, fun _ _ => 500⟩) 7).data)) :=
  ⟨by decide, by decide,
    c10_metadata_consistent ⟨2, 3, 1200⟩ (some ⟨2, 2, fun _ _ => 500⟩) 7
      (by decide) (by decide)⟩

end ALife
